import Mathlib

/-!
Shallow embedding of the dashboard-metrics component
(src/frontend/components/dashboard_metrics.tsx) and verification of its
specification.

The component fetches aggregate job-application metrics from a backend
endpoint once per mount, keeps three state variables (a nullable payload,
a loading boolean, a nullable error string), and renders either a spinner,
an error box, or a card dashboard.  JavaScript numbers are modelled as
rationals; JSON values as an inductive type; JS truthiness and template
string interpolation of numbers are modelled explicitly.
-/

/-- A JSON/JavaScript value as stored in the component state.  The
response body of a successful fetch is decoded JSON (never undefined);
the undefined value arises only from missing-field access. -/
inductive JSValue where
  | undefined
  | null
  | bool (b : Bool)
  | num (q : ℚ)
  | str (s : String)
  | arr (elems : List JSValue)
  | obj (fields : List (String × JSValue))

/-- JavaScript truthiness of a value (NaN is outside the rational model). -/
def jsTruthy : JSValue → Bool
  | .undefined => false
  | .null => false
  | .bool b => b
  | .num q => decide (q ≠ 0)
  | .str s => decide (s ≠ "")
  | .arr _ => true
  | .obj _ => true

/-- Truthiness of the nullable error string variable. -/
def jsStrTruthy : Option String → Bool
  | some s => decide (s ≠ "")
  | none => false

/-- The JavaScript expression `e || fallback` for a nullable string `e`. -/
def orFallback : Option String → String → String
  | some s, fb => if s = "" then fb else s
  | none, fb => fb

/-- Smallest exponent k with d dividing 10 ^ k, when one exists
(it does exactly when d has no prime factors besides 2 and 5). -/
def decExp (d : ℕ) : Option ℕ :=
  (List.range (d + 1)).find? (fun k => 10 ^ k % d == 0)

/-- Pad a digit string with leading zeros up to width k. -/
def padLeftZeros (s : String) (k : ℕ) : String :=
  String.mk (List.replicate (k - s.length) '0') ++ s

/-- Decimal rendering of a JavaScript number, as produced by template
string interpolation: integers print with no fractional part, terminating
decimals print with their minimal digits (3.5 prints as "3.5").  Rationals
that are not terminating decimals cannot arise from decoded JSON numbers
in this model; they fall back to the raw rational printout. -/
def jsNumToString (q : ℚ) : String :=
  match decExp q.den with
  | none => toString q
  | some 0 => toString q.num
  | some (k + 1) =>
      let n : ℕ := q.num.natAbs * 10 ^ (k + 1) / q.den
      let sign := if q.num < 0 then "-" else ""
      sign ++ toString (n / 10 ^ (k + 1)) ++ "." ++
        padLeftZeros (toString (n % 10 ^ (k + 1))) (k + 1)

/-- The TypeScript interface DashboardMetrics: shape of a well-formed
payload.  The per-week and per-month sequences are (label, count) pairs;
the status mapping is carried with the own-property order of the received
object. -/
structure DashboardMetrics where
  total_applications : ℚ
  interview_rate : ℚ
  offer_rate : ℚ
  avg_time_to_response : ℚ
  applications_last_7_days : ℚ
  applications_last_30_days : ℚ
  active_applications : ℚ
  applications_by_status : List (String × ℚ)
  applications_per_week : List (String × ℚ)
  applications_per_month : List (String × ℚ)

/-- The value prop of a MetricCard: string | number. -/
inductive StringOrNumber where
  | str (s : String)
  | num (q : ℚ)
deriving DecidableEq

/-- Props of one MetricCard, with the source defaults for the optional
subtitle and color. -/
structure MetricCardProps where
  title : String
  value : StringOrNumber
  subtitle : Option String := none
  color : String := "blue"
deriving DecidableEq

/-- The rendered dashboard: the key-metrics card row, the time-based card
row, and the status-breakdown rows (label and count, in render order). -/
structure DashboardView where
  keyMetrics : List MetricCardProps
  timeMetrics : List MetricCardProps
  statusBreakdown : List (String × ℚ)
deriving DecidableEq

/-- The view returned by the component: spinner while loading, the red
error box with a message, the dashboard, or a marker for a truthy payload
that does not match the TypeScript interface (behaviour outside the typed
contract of the source). -/
inductive View where
  | spinner
  | errorBox (message : String)
  | dashboard (d : DashboardView)
  | illTypedPayload
deriving DecidableEq

/-- Insert an entry into a list sorted by count descending, before the
first entry of smaller-or-equal count.  This realises one step of the
stable JavaScript Array.prototype.sort with comparator (a, b) => b[1] - a[1]. -/
def insertByCountDesc (x : String × ℚ) : List (String × ℚ) → List (String × ℚ)
  | [] => [x]
  | y :: ys => if x.2 < y.2 then y :: insertByCountDesc x ys else x :: y :: ys

/-- Stable sort by count descending, the semantics of
sort((a, b) => b[1] - a[1]) on the entry list. -/
def sortByCountDesc : List (String × ℚ) → List (String × ℚ)
  | [] => []
  | x :: xs => insertByCountDesc x (sortByCountDesc xs)

/-- The ready-state render: pure function from a well-formed payload to
the dashboard view, translated from the JSX of DashboardMetrics. -/
def renderDashboard (m : DashboardMetrics) : DashboardView :=
  { keyMetrics := [
      { color := "blue", title := "Total Applications",
        value := .num m.total_applications },
      { color := "green", title := "Interview Rate",
        subtitle := some "% that led to interviews",
        value := .str (jsNumToString m.interview_rate ++ "%") },
      { color := "purple", title := "Offer Rate",
        subtitle := some "% that led to offers",
        value := .str (jsNumToString m.offer_rate ++ "%") },
      { color := "orange", title := "Active Applications",
        subtitle := some "Still in progress",
        value := .num m.active_applications } ],
    timeMetrics := [
      { color := "blue", title := "Last 7 Days",
        value := .num m.applications_last_7_days },
      { color := "blue", title := "Last 30 Days",
        value := .num m.applications_last_30_days },
      { color := "gray", title := "Avg. Time to Response",
        subtitle := some "Days until response",
        value := if 0 < m.avg_time_to_response
                 then .str (jsNumToString m.avg_time_to_response ++ " days")
                 else .str "N/A" } ],
    statusBreakdown := sortByCountDesc m.applications_by_status }

/-- Field access on a JavaScript value: lookup on objects, undefined
otherwise (the render path never applies it to null or undefined). -/
def JSValue.getField : JSValue → String → JSValue
  | .obj fields, key =>
      match fields.find? (fun f => f.1 == key) with
      | some f => f.2
      | none => .undefined
  | _, _ => .undefined

/-- Numeric reading of a JavaScript value, per the TypeScript number type. -/
def JSValue.asNumber : JSValue → Option ℚ
  | .num q => some q
  | _ => none

/-- String reading of a JavaScript value. -/
def JSValue.asString : JSValue → Option String
  | .str s => some s
  | _ => none

/-- Entries of a Record of numbers, in own-property order. -/
def statusEntries : JSValue → Option (List (String × ℚ))
  | .obj fields => fields.mapM (fun f => f.2.asNumber.map (fun q => (f.1, q)))
  | _ => none

/-- An array of objects with a string label field and a numeric count
field, read as (label, count) pairs. -/
def labeledCounts (label : String) : JSValue → Option (List (String × ℚ))
  | .arr xs => xs.mapM (fun x => do
      let w ← (x.getField label).asString
      let c ← (x.getField "count").asNumber
      pure (w, c))
  | _ => none

/-- Reading a decoded JSON value at the TypeScript interface type
DashboardMetrics; none when the value does not have that shape. -/
def toPayload (j : JSValue) : Option DashboardMetrics := do
  let ta ← (j.getField "total_applications").asNumber
  let ir ← (j.getField "interview_rate").asNumber
  let orate ← (j.getField "offer_rate").asNumber
  let att ← (j.getField "avg_time_to_response").asNumber
  let a7 ← (j.getField "applications_last_7_days").asNumber
  let a30 ← (j.getField "applications_last_30_days").asNumber
  let act ← (j.getField "active_applications").asNumber
  let abst ← statusEntries (j.getField "applications_by_status")
  let apw ← labeledCounts "week" (j.getField "applications_per_week")
  let apm ← labeledCounts "month" (j.getField "applications_per_month")
  pure ⟨ta, ir, orate, att, a7, a30, act, abst, apw, apm⟩

/-- The three state variables of the component:
useState(null) for metrics, useState(true) for loading,
useState(null) for error. -/
structure ComponentState where
  metrics : JSValue
  loading : Bool
  error : Option String

/-- The initial state on mount. -/
def initState : ComponentState :=
  { metrics := .null, loading := true, error := none }

/-- The cause of a failed fetch, recorded only in the diagnostic log
(console.error): the thrown Error for a non-ok HTTP status, the rejection
of fetch itself, or the rejection of response.json(). -/
inductive FailureCause where
  | httpError
  | networkFailure
  | decodeFailure
deriving DecidableEq

/-- Outcome of the one network call: the fetch promise rejects, or a
response arrives with its ok flag and the result of JSON-decoding its
body. -/
inductive FetchOutcome where
  | networkError
  | response (ok : Bool) (body : Except Unit JSValue)

/-- One run of the fetchMetrics async function from a given state:
setLoading(true); on a non-ok response throw; decode JSON and
setMetrics(data); any failure is caught, setError("Failed to load
metrics") and the cause logged; finally setLoading(false).  Returns the
resulting state and the diagnostic log entry, if any. -/
def fetchMetrics (s : ComponentState) (out : FetchOutcome) :
    ComponentState × Option FailureCause :=
  match out with
  | .networkError =>
      ({ s with loading := false, error := some "Failed to load metrics" },
       some .networkFailure)
  | .response ok body =>
      if ok then
        match body with
        | .ok data => ({ s with loading := false, metrics := data }, none)
        | .error _ =>
            ({ s with loading := false, error := some "Failed to load metrics" },
             some .decodeFailure)
      else
        ({ s with loading := false, error := some "Failed to load metrics" },
         some .httpError)

/-- The component body after the hooks: spinner while loading; the error
box when the error string is truthy or the metrics value is falsy, showing
error || "No metrics available"; otherwise the dashboard rendered from the
payload at its interface type. -/
def renderState (s : ComponentState) : View :=
  if s.loading then .spinner
  else if jsStrTruthy s.error || !jsTruthy s.metrics then
    .errorBox (orFallback s.error "No metrics available")
  else
    match toPayload s.metrics with
    | some m => .dashboard (renderDashboard m)
    | none => .illTypedPayload

/-- The fixed fallback of the base URL:
process.env.NEXT_PUBLIC_API_URL || "http://localhost:8000". -/
def defaultApiUrl : String := "http://localhost:8000"

/-- Resolution of the base URL from the environment variable: the JS
or-expression takes the fallback when the variable is unset or empty. -/
def apiUrl (env : Option String) : String :=
  match env with
  | some s => if s = "" then defaultApiUrl else s
  | none => defaultApiUrl

/-- The one outbound request of fetchMetrics for a given base URL. -/
structure HttpRequest where
  method : String
  url : String
  credentials : String
  queryParams : List (String × String)
  reqBody : Option String
deriving DecidableEq

/-- The GET request issued by fetchMetrics. -/
def metricsRequest (base : String) : HttpRequest :=
  { method := "GET", url := base ++ "/dashboard-metrics",
    credentials := "include", queryParams := [], reqBody := none }

/-- useEffect with dependency list [apiUrl]: given the apiUrl value of
each successive render (and the previously seen dependency, none on
mount), the effect fires on mount and whenever the value changes. -/
def effectFirings : Option String → List String → List String
  | _, [] => []
  | none, u :: us => u :: effectFirings (some u) us
  | some prev, u :: us =>
      if u = prev then effectFirings (some prev) us
      else u :: effectFirings (some u) us

/-- The requests issued across a sequence of renders with the given
apiUrl values, starting from mount. -/
def requestsIssued (urls : List String) : List HttpRequest :=
  (effectFirings none urls).map metricsRequest

/-- The loading state variable is set. -/
def loadingActive (s : ComponentState) : Prop := s.loading = true

/-- The error state variable is set. -/
def errorActive (s : ComponentState) : Prop := s.error ≠ none

/-- The nullable payload state variable holds a payload. -/
def readyActive (s : ComponentState) : Prop := s.metrics ≠ JSValue.null

/-- Exactly one of the three informal states is active. -/
def exactlyOneActive (s : ComponentState) : Prop :=
  (loadingActive s ∧ ¬ errorActive s ∧ ¬ readyActive s) ∨
  (¬ loadingActive s ∧ errorActive s ∧ ¬ readyActive s) ∨
  (¬ loadingActive s ∧ ¬ errorActive s ∧ readyActive s)

/-- No two of the three informal states are active together. -/
def atMostOneActive (s : ComponentState) : Prop :=
  (¬ loadingActive s ∨ ¬ errorActive s) ∧
  (¬ loadingActive s ∨ ¬ readyActive s) ∧
  (¬ errorActive s ∨ ¬ readyActive s)

/-- States of the component reachable in one mount: the initial state, or
the result of the single fetch with some outcome. -/
def Reachable (s : ComponentState) : Prop :=
  s = initState ∨ ∃ out, s = (fetchMetrics initState out).1

/-- A fetch outcome that takes the catch branch: the fetch rejects, the
response is not ok, or the body fails to decode. -/
def isFailure : FetchOutcome → Prop
  | .networkError => True
  | .response ok body => ok = false ∨ body = .error ()

/-- Inserting an entry is a permutation step. -/
theorem insertByCountDesc_perm (x : String × ℚ) (l : List (String × ℚ)) :
    List.Perm (insertByCountDesc x l) (x :: l) := by
  induction l with
  | nil => exact List.Perm.refl _
  | cons y ys ih =>
    simp only [insertByCountDesc]
    by_cases h : x.2 < y.2
    · simp only [if_pos h]
      exact (ih.cons y).trans (List.Perm.swap x y ys)
    · simp only [if_neg h]
      exact List.Perm.refl _

/-- Inserting an entry preserves descending order by count. -/
theorem insertByCountDesc_pairwise (x : String × ℚ) (l : List (String × ℚ))
    (h : List.Pairwise (fun a b => b.2 ≤ a.2) l) :
    List.Pairwise (fun a b => b.2 ≤ a.2) (insertByCountDesc x l) := by
  induction l with
  | nil => simp [insertByCountDesc]
  | cons y ys ih =>
    rcases List.pairwise_cons.mp h with ⟨hy, hys⟩
    simp only [insertByCountDesc]
    by_cases hxy : x.2 < y.2
    · simp only [if_pos hxy]
      refine List.pairwise_cons.mpr ⟨?_, ih hys⟩
      intro z hz
      have hz' : z ∈ x :: ys := (insertByCountDesc_perm x ys).mem_iff.mp hz
      rcases List.mem_cons.mp hz' with rfl | hzys
      · exact le_of_lt hxy
      · exact hy z hzys
    · simp only [if_neg hxy]
      refine List.pairwise_cons.mpr ⟨?_, h⟩
      intro z hz
      rcases List.mem_cons.mp hz with rfl | hzys
      · exact not_lt.mp hxy
      · exact le_trans (hy z hzys) (not_lt.mp hxy)

/-- Insertion is stable: restricted to any fixed count, the entries keep
their order, the inserted one first exactly when it has that count. -/
theorem insertByCountDesc_filter (x : String × ℚ) (l : List (String × ℚ)) (c : ℚ) :
    (insertByCountDesc x l).filter (fun e => decide (e.2 = c)) =
      if x.2 = c then x :: l.filter (fun e => decide (e.2 = c))
      else l.filter (fun e => decide (e.2 = c)) := by
  induction l with
  | nil =>
    by_cases hx : x.2 = c <;> simp [insertByCountDesc, List.filter, hx]
  | cons y ys ih =>
    simp only [insertByCountDesc]
    by_cases hxy : x.2 < y.2
    · simp only [if_pos hxy]
      by_cases hx : x.2 = c
      · have hy : ¬ y.2 = c := by
          intro hyc
          exact absurd hxy (by simp [hx, hyc])
        simp [List.filter_cons, hx, hy, ih]
      · by_cases hy : y.2 = c <;> simp [List.filter_cons, hx, hy, ih]
    · simp only [if_neg hxy]
      by_cases hx : x.2 = c <;> simp [List.filter_cons, hx]

/-- The rendered status order is a permutation of the received entries. -/
theorem sortByCountDesc_perm (l : List (String × ℚ)) :
    List.Perm (sortByCountDesc l) l := by
  induction l with
  | nil => exact List.Perm.refl _
  | cons x xs ih =>
    exact (insertByCountDesc_perm x (sortByCountDesc xs)).trans (ih.cons x)

/-- The rendered status order is descending by count. -/
theorem sortByCountDesc_pairwise (l : List (String × ℚ)) :
    List.Pairwise (fun a b => b.2 ≤ a.2) (sortByCountDesc l) := by
  induction l with
  | nil => simp [sortByCountDesc]
  | cons x xs ih => exact insertByCountDesc_pairwise x (sortByCountDesc xs) ih

/-- The sort is stable: entries of any fixed count appear in exactly the
order they had in the received entry list. -/
theorem sortByCountDesc_filter (l : List (String × ℚ)) (c : ℚ) :
    (sortByCountDesc l).filter (fun e => decide (e.2 = c)) =
      l.filter (fun e => decide (e.2 = c)) := by
  induction l with
  | nil => rfl
  | cons x xs ih =>
    simp only [sortByCountDesc]
    rw [insertByCountDesc_filter]
    by_cases hx : x.2 = c <;> simp [List.filter_cons, hx, ih]

/-- A concrete well-formed payload using the status mapping of the spec
example. -/
def samplePayload : DashboardMetrics :=
  { total_applications := 42, interview_rate := 25, offer_rate := 10,
    avg_time_to_response := 0, applications_last_7_days := 3,
    applications_last_30_days := 9, active_applications := 7,
    applications_by_status := [("Applied", 5), ("Interview", 12), ("Rejected", 2)],
    applications_per_week := [], applications_per_month := [] }

/-- samplePayload with different forward-compatibility sequences. -/
def samplePayloadAltSeqs : DashboardMetrics :=
  { samplePayload with
    applications_per_week := [("2024-W01", 1)],
    applications_per_month := [("2024-01", 4)] }

/-- A default card used only as the out-of-range fallback of list indexing. -/
def blankCard : MetricCardProps := { title := "", value := .str "" }

/-- C1: the status-breakdown list renders the entries of
applications_by_status sorted by count descending; entries with equal
counts keep the order of the mapping as received (stability, stated as:
restricting the rendered list to any fixed count gives exactly the
received sublist of that count); labels and counts are carried verbatim
(the rendered list is a permutation of the received entries); on the
spec's example mapping the rendered order is Interview(12), Applied(5),
Rejected(2). -/
theorem C1_status_breakdown_sorted (m : DashboardMetrics) :
    (renderDashboard m).statusBreakdown = sortByCountDesc m.applications_by_status ∧
    List.Perm (renderDashboard m).statusBreakdown m.applications_by_status ∧
    List.Pairwise (fun a b => b.2 ≤ a.2) (renderDashboard m).statusBreakdown ∧
    (∀ c : ℚ, ((renderDashboard m).statusBreakdown).filter (fun e => decide (e.2 = c)) =
      m.applications_by_status.filter (fun e => decide (e.2 = c))) ∧
    (renderDashboard samplePayload).statusBreakdown =
      [("Interview", 12), ("Applied", 5), ("Rejected", 2)] := by
  refine ⟨rfl, sortByCountDesc_perm _, sortByCountDesc_pairwise _,
    sortByCountDesc_filter _, by decide⟩

/-- C3: the average time-to-response card shows the string value-space-days
when avg_time_to_response is positive and the literal "N/A" otherwise;
in particular 0 renders "N/A" and 3.5 renders "3.5 days". -/
theorem C3_avg_time_card (m : DashboardMetrics) :
    ((renderDashboard m).timeMetrics.getD 2 blankCard).value =
      (if 0 < m.avg_time_to_response
       then StringOrNumber.str (jsNumToString m.avg_time_to_response ++ " days")
       else StringOrNumber.str "N/A") ∧
    ((renderDashboard { m with avg_time_to_response := 0 }).timeMetrics.getD 2
        blankCard).value = StringOrNumber.str "N/A" ∧
    ((renderDashboard { m with avg_time_to_response := 7 / 2 }).timeMetrics.getD 2
        blankCard).value = StringOrNumber.str "3.5 days" := by
  refine ⟨rfl, ?_, ?_⟩
  · show (if (0:ℚ) < 0 then StringOrNumber.str (jsNumToString 0 ++ " days")
        else StringOrNumber.str "N/A") = StringOrNumber.str "N/A"
    rw [if_neg (lt_irrefl 0)]
  · show (if (0:ℚ) < 7 / 2 then StringOrNumber.str (jsNumToString (7 / 2) ++ " days")
        else StringOrNumber.str "N/A") = StringOrNumber.str "3.5 days"
    rw [if_pos (by norm_num : (0:ℚ) < 7 / 2),
      show ((7:ℚ) / 2) = mkRat 7 2 by rw [Rat.mkRat_eq_div]; norm_num]
    decide

/-- C4: the four headline cards show exactly the input values
total_applications, interview_rate, offer_rate and active_applications in
that order, the two rates as strings suffixed with a percent sign, the
other two as the raw numbers. -/
theorem C4_headline_cards (m : DashboardMetrics) :
    (renderDashboard m).keyMetrics.map (fun c => c.value) =
      [ .num m.total_applications,
        .str (jsNumToString m.interview_rate ++ "%"),
        .str (jsNumToString m.offer_rate ++ "%"),
        .num m.active_applications ] ∧
    (renderDashboard m).keyMetrics.map (fun c => c.title) =
      ["Total Applications", "Interview Rate", "Offer Rate", "Active Applications"] :=
  ⟨rfl, rfl⟩

/-- C6: a success-status response whose body decodes as JSON moves the
component to the ready state holding exactly the decoded value, with no
error and nothing logged, for every decoded JSON value whatsoever (no
schema validation). -/
theorem C6_any_decoded_json_accepted (j : JSValue) :
    fetchMetrics initState (.response true (.ok j)) =
      ({ metrics := j, loading := false, error := none }, none) := rfl

/-- C9: the fetch-and-store step is idempotent in its outcome — running
the same fetch outcome again from the resulting state changes neither the
state nor the rendered view, so repeated identical successful fetches
produce identical rendered output and no hidden state accumulates. -/
theorem C9_render_idempotent (s : ComponentState) (out : FetchOutcome) :
    (fetchMetrics (fetchMetrics s out).1 out).1 = (fetchMetrics s out).1 ∧
    renderState (fetchMetrics (fetchMetrics s out).1 out).1
      = renderState (fetchMetrics s out).1 := by
  have h : (fetchMetrics (fetchMetrics s out).1 out).1 = (fetchMetrics s out).1 := by
    rcases out with _ | ⟨ok, body⟩
    · rfl
    · cases ok <;> cases body <;> rfl
  exact ⟨h, by rw [h]⟩

/-- C10: the rendered dashboard is independent of applications_per_week
and applications_per_month — two payloads agreeing on every other field
render identically. -/
theorem C10_per_week_month_unused (m₁ m₂ : DashboardMetrics)
    (h1 : m₁.total_applications = m₂.total_applications)
    (h2 : m₁.interview_rate = m₂.interview_rate)
    (h3 : m₁.offer_rate = m₂.offer_rate)
    (h4 : m₁.avg_time_to_response = m₂.avg_time_to_response)
    (h5 : m₁.applications_last_7_days = m₂.applications_last_7_days)
    (h6 : m₁.applications_last_30_days = m₂.applications_last_30_days)
    (h7 : m₁.active_applications = m₂.active_applications)
    (h8 : m₁.applications_by_status = m₂.applications_by_status) :
    renderDashboard m₁ = renderDashboard m₂ := by
  simp [renderDashboard, h1, h2, h3, h4, h5, h6, h7, h8]

/-- Witness for C10 at two concrete payloads differing only in the
per-week and per-month sequences. -/
theorem C10_per_week_month_unused_witness :
    renderDashboard samplePayload = renderDashboard samplePayloadAltSeqs :=
  C10_per_week_month_unused samplePayload samplePayloadAltSeqs
    rfl rfl rfl rfl rfl rfl rfl rfl

/-- C2: every failing fetch — network failure, non-ok HTTP status, or
JSON decode failure — puts the component in the error state with the
single message "Failed to load metrics"; the view then shows exactly that
literal message in the error box and no dashboard cards; the underlying
cause is recorded in the diagnostic log (and the shown message is the
fixed literal, not the cause). -/
theorem C2_failures_unified (out : FetchOutcome) (h : isFailure out) :
    (fetchMetrics initState out).1.error = some "Failed to load metrics" ∧
    renderState (fetchMetrics initState out).1 =
      View.errorBox "Failed to load metrics" ∧
    (∀ d, renderState (fetchMetrics initState out).1 ≠ View.dashboard d) ∧
    (fetchMetrics initState out).2 ≠ none := by
  rcases out with _ | ⟨ok, body⟩
  · exact ⟨rfl, rfl, fun d hd => View.noConfusion hd, fun hc => Option.noConfusion hc⟩
  · cases ok
    · cases body <;>
        exact ⟨rfl, rfl, fun d hd => View.noConfusion hd, fun hc => Option.noConfusion hc⟩
    · cases body with
      | error e =>
          exact ⟨rfl, rfl, fun d hd => View.noConfusion hd, fun hc => Option.noConfusion hc⟩
      | ok j =>
          rcases h with h | h
          · exact Bool.noConfusion h
          · exact Except.noConfusion h

/-- Witness for C2 at a concrete non-ok HTTP response. -/
theorem C2_failures_unified_witness :
    renderState (fetchMetrics initState (.response false (.ok .null))).1 =
      View.errorBox "Failed to load metrics" :=
  (C2_failures_unified (.response false (.ok .null)) (Or.inl rfl)).2.1

/-- C7: when the fetch succeeds but the body decodes to JSON null or any
other falsy value, no error is set, yet the view is the fallback box with
the literal "No metrics available" — a user-visible outcome that is
neither the dashboard nor the documented error message "Failed to load
metrics". -/
theorem C7_falsy_body_fallback (j : JSValue) (h : jsTruthy j = false) :
    (fetchMetrics initState (.response true (.ok j))).1.error = none ∧
    renderState (fetchMetrics initState (.response true (.ok j))).1 =
      View.errorBox "No metrics available" ∧
    (∀ d, renderState (fetchMetrics initState (.response true (.ok j))).1 ≠
      View.dashboard d) ∧
    View.errorBox "No metrics available" ≠ View.errorBox "Failed to load metrics" := by
  have hs : (fetchMetrics initState (.response true (.ok j))).1 =
      { metrics := j, loading := false, error := none } := rfl
  have hr : renderState { metrics := j, loading := false, error := none } =
      View.errorBox "No metrics available" := by
    simp [renderState, jsStrTruthy, orFallback, h]
  refine ⟨rfl, by rw [hs, hr], ?_, by decide⟩
  intro d hd
  rw [hs, hr] at hd
  exact View.noConfusion hd

/-- Witness for C7 at the JSON null body. -/
theorem C7_falsy_body_fallback_witness :
    renderState (fetchMetrics initState (.response true (.ok .null))).1 =
      View.errorBox "No metrics available" :=
  (C7_falsy_body_fallback .null rfl).2.1

/-- C5 fails as stated: after a successful fetch whose body decodes to
JSON null, the component is in a reachable state in which none of the
three informal states is active — the loading flag is down, the error
string is unset, and the payload variable still holds null. -/
theorem C5_counterexample :
    Reachable (fetchMetrics initState (.response true (.ok .null))).1 ∧
    ¬ exactlyOneActive (fetchMetrics initState (.response true (.ok .null))).1 := by
  constructor
  · exact Or.inr ⟨.response true (.ok .null), rfl⟩
  · intro hx
    have hs : (fetchMetrics initState (.response true (.ok .null))).1 =
        { metrics := .null, loading := false, error := none } := rfl
    rw [hs] at hx
    simp [exactlyOneActive, loadingActive, errorActive, readyActive] at hx

/-- C5 (amended): in every reachable state at most one of the three
informal states is active — no invalid combination of the three state
variables (such as an error together with a payload) is reachable; after
a successful fetch of a falsy JSON body, however, none of the three is
active (the fallback view of C7). -/
theorem C5_at_most_one_active (s : ComponentState) (h : Reachable s) :
    atMostOneActive s := by
  rcases h with rfl | ⟨out, rfl⟩
  · simp [atMostOneActive, loadingActive, errorActive, readyActive, initState]
  · rcases out with _ | ⟨ok, body⟩
    · simp [atMostOneActive, loadingActive, errorActive, readyActive, fetchMetrics,
        initState]
    · cases ok <;> cases body <;>
        simp [atMostOneActive, loadingActive, errorActive, readyActive, fetchMetrics,
          initState]

/-- Witness for C5 (amended) at the initial state. -/
theorem C5_at_most_one_active_witness : atMostOneActive initState :=
  C5_at_most_one_active initState (Or.inl rfl)

/-- C8 fails as stated on one boundary input: when the environment
variable is set to the empty string the code still falls back to the
default base URL, not the environment-provided value. -/
theorem C8_counterexample :
    apiUrl (some "") = "http://localhost:8000" ∧
    ("http://localhost:8000" : String) ≠ "" := by
  decide

/-- Helper: the effect does not fire again while the dependency value is
unchanged. -/
theorem effectFirings_const (a : String) (us : List String)
    (h : ∀ u ∈ us, u = a) : effectFirings (some a) us = [] := by
  induction us with
  | nil => rfl
  | cons u us ih =>
    have hu : u = a := h u (List.mem_cons_self u us)
    subst hu
    simp only [effectFirings, if_pos rfl]
    exact ih (fun v hv => h v (List.mem_cons_of_mem u hv))

/-- C8 (amended): across any nonempty run of renders whose base URL stays
at its resolved value, exactly one request is issued: a GET to the base
URL followed by /dashboard-metrics, credentials included, no query
parameters and no body; the base URL is the environment value when that
is set and non-empty, and the default http://localhost:8000 when the
variable is unset or empty; a second request is issued exactly when the
base URL changes between renders. -/
theorem C8_single_request (env : Option String) (us : List String)
    (hne : us ≠ []) (hall : ∀ u ∈ us, u = apiUrl env) :
    requestsIssued us = [metricsRequest (apiUrl env)] ∧
    (metricsRequest (apiUrl env)).method = "GET" ∧
    (metricsRequest (apiUrl env)).url = apiUrl env ++ "/dashboard-metrics" ∧
    (metricsRequest (apiUrl env)).credentials = "include" ∧
    (metricsRequest (apiUrl env)).queryParams = [] ∧
    (metricsRequest (apiUrl env)).reqBody = none ∧
    apiUrl none = "http://localhost:8000" ∧
    (∀ s, s ≠ "" → apiUrl (some s) = s) ∧
    apiUrl (some "") = "http://localhost:8000" ∧
    (∀ u v : String, u ≠ v →
      requestsIssued [u, v] = [metricsRequest u, metricsRequest v]) := by
  refine ⟨?_, rfl, rfl, rfl, rfl, rfl, rfl, ?_, rfl, ?_⟩
  · rcases us with _ | ⟨u, us⟩
    · exact absurd rfl hne
    · have hu : u = apiUrl env := hall u (List.mem_cons_self u us)
      subst hu
      have h2 : effectFirings (some (apiUrl env)) us = [] :=
        effectFirings_const _ _ (fun v hv => hall v (List.mem_cons_of_mem _ hv))
      simp [requestsIssued, effectFirings, h2]
  · intro s hs
    simp [apiUrl, hs]
  · intro u v huv
    have hvu : ¬ (v = u) := fun hc => huv hc.symm
    simp [requestsIssued, effectFirings, hvu]

/-- Witness for C8 (amended): a single render at the default base URL
issues exactly the one request. -/
theorem C8_single_request_witness :
    requestsIssued [apiUrl none] = [metricsRequest (apiUrl none)] :=
  (C8_single_request none [apiUrl none] (by simp) (by simp)).1
